import Mathlib

/-!
Verification of the Nova Sonic bidirectional stream client (the Session
Engine of the rbcmsite repository).  The definitions below are a shallow
embedding of the TypeScript classes `StreamSession` and
`NovaSonicBidirectionalStreamClient`: JavaScript `Map`s become association
lists, JavaScript `Set`s become lists of keys, rxjs `Subject`s become
counters/flags recording how often they were fired, `Date.now()` becomes an
explicit `now : Nat` argument, and the nondeterminism of the surrounding
event loop (what arrives while the queue consumer waits, how many audio
chunks one `processAudioQueue` invocation manages to forward before it is
interrupted, which UUIDs are generated) is passed in as explicit oracle
arguments.  Asynchronous code that the source runs strictly sequentially
(every `await` inside one method) is modelled by sequential composition.
-/

namespace NovaSonic

/-- Association-list model of a JavaScript `Map` keyed by strings:
first-match lookup. -/
def mapLookup {α : Type} (m : List (String × α)) (k : String) : Option α :=
  match m with
  | [] => none
  | (k', v) :: rest => if k' = k then some v else mapLookup rest k

/-- Model of `Map.prototype.set`: replace the binding for `k` in place, or
append a new binding at the end. -/
def mapInsert {α : Type} (m : List (String × α)) (k : String) (v : α) :
    List (String × α) :=
  match m with
  | [] => [(k, v)]
  | (k', v') :: rest => if k' = k then (k, v) :: rest else (k', v') :: mapInsert rest k v

/-- Model of `Map.prototype.delete`: remove every binding for `k` (a
JavaScript `Map` holds at most one). -/
def mapErase {α : Type} (m : List (String × α)) (k : String) :
    List (String × α) :=
  match m with
  | [] => []
  | (k', v') :: rest => if k' = k then mapErase rest k else (k', v') :: mapErase rest k

/-- Model of `Set.prototype.has`. -/
def setHas (s : List String) (k : String) : Bool :=
  match s with
  | [] => false
  | k' :: rest => if k' = k then true else setHas rest k

/-- Model of `Set.prototype.add` (no duplicate is created). -/
def setAdd (s : List String) (k : String) : List String :=
  if setHas s k then s else k :: s

/-- Model of `Set.prototype.delete`. -/
def setDelete (s : List String) (k : String) : List String :=
  match s with
  | [] => []
  | k' :: rest => if k' = k then setDelete rest k else k' :: setDelete rest k

theorem mapLookup_mapInsert_self {α : Type} (m : List (String × α)) (k : String) (v : α) :
    mapLookup (mapInsert m k v) k = some v := by
  induction m with
  | nil => simp [mapInsert, mapLookup]
  | cons hd tl ih =>
    by_cases h : hd.1 = k
    · simp [mapInsert, mapLookup, h]
    · simp [mapInsert, mapLookup, h, ih]

theorem mapLookup_mapErase_self {α : Type} (m : List (String × α)) (k : String) :
    mapLookup (mapErase m k) k = none := by
  induction m with
  | nil => simp [mapErase, mapLookup]
  | cons hd tl ih =>
    by_cases h : hd.1 = k
    · simp [mapErase, h, ih]
    · simp [mapErase, mapLookup, h, ih]

theorem setDelete_of_not_setHas (s : List String) (k : String)
    (h : setHas s k = false) : setDelete s k = s := by
  induction s with
  | nil => simp [setDelete]
  | cons hd tl ih =>
    by_cases hk : hd = k
    · simp [setHas, hk] at h
    · simp [setHas, hk] at h
      simp [setDelete, hk, ih h]

/-- Shape of the `content` field stored inside an inbound `toolUse` event, as
seen by `parseToolUseContentForWeather`: either the field is missing or not a
string, or it is a string that `JSON.parse` rejects, or it parses to an
object carrying `latitude` and `longitude`. -/
inductive ToolContent
  | nonString
  | unparseable (raw : String)
  | coords (latitude longitude : String)
  deriving DecidableEq, Repr

/-- Value returned by a successful `processToolUse` call.  The wall-clock
fields of the date/time result and the body fetched from open-meteo are
outside the program and abstracted to the constructors themselves. -/
inductive ToolsResult
  | dateTime
  | weather (latitude longitude : String)
  deriving DecidableEq, Repr

/-- Outbound events placed on a session's queue (the JSON envelope
`\x7b event: \x7b kind: ... \x7d \x7d` reduced to its kind and the
identifying fields the client fills in). -/
inductive OutEvent
  | sessionStart
  | promptStart (promptName : String)
  | contentStartText (promptName contentName : String)
  | contentStartAudio (promptName contentName : String)
  | contentStartTool (promptName contentName toolUseId : String)
  | textInput (promptName contentName content : String)
  | audioInput (promptName contentName : String) (content : List Nat)
  | toolResult (promptName contentName : String) (content : ToolsResult)
  | contentEnd (promptName contentName : String)
  | promptEnd (promptName : String)
  | sessionEnd
  deriving DecidableEq, Repr

/-- Per-session record (`SessionData` in the source).  `queueSignal` and
`closeSignal` are rxjs subjects; here `queueSignalCount` counts the calls to
`queueSignal.next(true)` and the two close flags record `closeSignal.next()`
and `closeSignal.complete()`.  The `responseHandlers` map holds callbacks and
is modelled separately (see `dispatchEvent`); `inferenceConfig`,
`isPromptStartSent`, `activePromptIds` and `activeContentIds` play no role in
the verified claims and are omitted. -/
structure SessionData where
  queue : List OutEvent
  queueSignalCount : Nat
  closeSignalFired : Bool
  closeSignalCompleted : Bool
  toolUseContent : Option ToolContent
  toolUseId : String
  toolName : String
  promptName : String
  isActive : Bool
  isAudioContentStartSent : Bool
  audioContentId : String
  deriving DecidableEq, Repr

/-- Registry state of `NovaSonicBidirectionalStreamClient`:
`activeSessions`, `sessionLastActivity` and `sessionCleanupInProgress`. -/
structure ClientState where
  activeSessions : List (String × SessionData)
  sessionLastActivity : List (String × Nat)
  sessionCleanupInProgress : List String
  deriving DecidableEq, Repr

/-- Queue of the given session, when the session is registered. -/
def sessionQueue (st : ClientState) (sessionId : String) : Option (List OutEvent) :=
  (mapLookup st.activeSessions sessionId).map SessionData.queue

/-- Boolean form of `isSessionActive`: the session is registered and its
`isActive` flag is set. -/
def sessionActiveB (st : ClientState) (sessionId : String) : Bool :=
  match mapLookup st.activeSessions sessionId with
  | none => false
  | some s => s.isActive

/-- Source `updateSessionActivity`: `sessionLastActivity.set(sessionId, Date.now())`. -/
def updateSessionActivity (st : ClientState) (sessionId : String) (now : Nat) : ClientState :=
  { st with sessionLastActivity := mapInsert st.sessionLastActivity sessionId now }

/-- Source `addEventToSessionQueue`: drop the event silently unless the
session is registered and active; otherwise update last activity, push the
event, and fire `queueSignal.next(true)`. -/
def addEventToSessionQueue (st : ClientState) (sessionId : String) (event : OutEvent)
    (now : Nat) : ClientState :=
  match mapLookup st.activeSessions sessionId with
  | none => st
  | some session =>
    if !session.isActive then st
    else
      let st1 := updateSessionActivity st sessionId now
      { st1 with
          activeSessions := mapInsert st1.activeSessions sessionId
            { session with
                queue := session.queue ++ [event],
                queueSignalCount := session.queueSignalCount + 1 } }

/-- Source `streamAudioChunk`: throws `Invalid session ... for audio
streaming` when the session is missing, inactive, or has no
`audioContentId`; otherwise enqueues an `audioInput` event carrying the
session's `promptName` and `audioContentId` (the base64 encoding of the
chunk is kept as the raw bytes; no claim inspects the encoding). -/
def streamAudioChunk (st : ClientState) (sessionId : String) (audioData : List Nat)
    (now : Nat) : Except String ClientState :=
  match mapLookup st.activeSessions sessionId with
  | none => .error ("Invalid session " ++ sessionId ++ " for audio streaming")
  | some session =>
    if !session.isActive || session.audioContentId = "" then
      .error ("Invalid session " ++ sessionId ++ " for audio streaming")
    else
      .ok (addEventToSessionQueue st sessionId
        (.audioInput session.promptName session.audioContentId audioData) now)

/-- Source `setupSessionStartEvent`: clear the queue, enqueue `sessionStart`
through `addEventToSessionQueue`, then fire `queueSignal.next(true)` once
more. -/
def setupSessionStartEvent (st : ClientState) (sessionId : String) (now : Nat) : ClientState :=
  match mapLookup st.activeSessions sessionId with
  | none => st
  | some session =>
    let st1 := { st with
      activeSessions := mapInsert st.activeSessions sessionId { session with queue := [] } }
    let st2 := addEventToSessionQueue st1 sessionId .sessionStart now
    match mapLookup st2.activeSessions sessionId with
    | none => st2
    | some s2 =>
      { st2 with
          activeSessions := mapInsert st2.activeSessions sessionId
            { s2 with queueSignalCount := s2.queueSignalCount + 1 } }

/-- Source `sendSessionEnd`: enqueue `sessionEnd`, wait 300 ms, then mark the
session inactive, fire and complete `closeSignal`, and delete the session
from both registry maps.  The second component is the final state of the
(now unregistered) session object, which live iterators still reference. -/
def sendSessionEnd (st : ClientState) (sessionId : String) (now : Nat) :
    ClientState × Option SessionData :=
  match mapLookup st.activeSessions sessionId with
  | none => (st, none)
  | some _ =>
    let st1 := addEventToSessionQueue st sessionId .sessionEnd now
    match mapLookup st1.activeSessions sessionId with
    | none => (st1, none)
    | some s1 =>
      let s2 := { s1 with
        isActive := false, closeSignalFired := true, closeSignalCompleted := true }
      ({ st1 with
          activeSessions := mapErase st1.activeSessions sessionId,
          sessionLastActivity := mapErase st1.sessionLastActivity sessionId },
       some s2)

/-- Source `forceCloseSession`: no-op when cleanup is already in progress or
the session is unknown; otherwise mark the cleanup in progress, mark the
session inactive, fire and complete `closeSignal`, delete the session from
both registry maps, and (in the `finally` block) remove the cleanup marker.
The second component is the final state of the removed session object. -/
def forceCloseSession (st : ClientState) (sessionId : String) :
    ClientState × Option SessionData :=
  if setHas st.sessionCleanupInProgress sessionId ||
      (mapLookup st.activeSessions sessionId).isNone then
    (st, none)
  else
    let st1 := { st with
      sessionCleanupInProgress := setAdd st.sessionCleanupInProgress sessionId }
    match mapLookup st1.activeSessions sessionId with
    | none =>
      ({ st1 with
          sessionCleanupInProgress := setDelete st1.sessionCleanupInProgress sessionId },
       none)
    | some s =>
      let s2 := { s with
        isActive := false, closeSignalFired := true, closeSignalCompleted := true }
      let st2 := { st1 with
        activeSessions := mapErase st1.activeSessions sessionId,
        sessionLastActivity := mapErase st1.sessionLastActivity sessionId }
      ({ st2 with
          sessionCleanupInProgress := setDelete st2.sessionCleanupInProgress sessionId },
       some s2)

/-- Local state of a `StreamSession` wrapper object: its bounded audio
buffer, its re-entrancy guard, and its own `isActive` flag (distinct from
the registry record's flag). -/
structure StreamSessionState where
  audioBufferQueue : List (List Nat)
  isProcessingAudio : Bool
  isActive : Bool
  deriving DecidableEq, Repr

/-- The configured bound on the audio buffer (`maxQueueSize = 200`). -/
def maxQueueSize : Nat := 200

/-- Fresh `StreamSession`: empty buffer, not processing, active. -/
def initialStreamSession : StreamSessionState :=
  { audioBufferQueue := [], isProcessingAudio := false, isActive := true }

/-- First half of `StreamSession.streamAudio`: when the buffer already holds
`maxQueueSize` chunks, shift the oldest out before pushing the new chunk. -/
def enqueueAudio (s : StreamSessionState) (chunk : List Nat) : StreamSessionState :=
  let q := if maxQueueSize ≤ s.audioBufferQueue.length
           then s.audioBufferQueue.tail else s.audioBufferQueue
  { s with audioBufferQueue := q ++ [chunk] }

/-- One invocation of `StreamSession.processAudioQueue`: return immediately
if a previous invocation is running, the buffer is empty, or the session is
inactive; otherwise shift and forward chunks from the front.  The source
forwards at most 5 per batch (`maxChunksPerBatch`) and reschedules itself;
`k` is the number of chunks this invocation manages to forward before its
batch limit, an upstream error, or rescheduling cuts it short.  The second
component lists the chunks handed to `client.streamAudioChunk`. -/
def processAudioQueueStep (s : StreamSessionState) (k : Nat) :
    StreamSessionState × List (List Nat) :=
  if s.isProcessingAudio || s.audioBufferQueue.isEmpty || !s.isActive then (s, [])
  else
    let n := min (min k 5) s.audioBufferQueue.length
    ({ s with audioBufferQueue := s.audioBufferQueue.drop n },
     s.audioBufferQueue.take n)

/-- Source `StreamSession.streamAudio`: bounded enqueue followed by a
(possibly immediately returning) `processAudioQueue` invocation. -/
def streamAudio (s : StreamSessionState) (chunk : List Nat) (k : Nat) :
    StreamSessionState × List (List Nat) :=
  processAudioQueueStep (enqueueAudio s chunk) k

/-- Source `StreamSession.close`: if already inactive do nothing; otherwise
clear the active flag and the pending audio, then run the client's
`sendSessionEnd`. -/
def closeStreamSession (s : StreamSessionState) (client : ClientState)
    (sessionId : String) (now : Nat) :
    StreamSessionState × ClientState × Option SessionData :=
  if !s.isActive then (s, client, none)
  else
    let s1 := { s with isActive := false, audioBufferQueue := [] }
    let r := sendSessionEnd client sessionId now
    (s1, r.1, r.2)

/-- The operations that touch a `StreamSession`'s audio buffer, with the
scheduling oracle for each `processAudioQueue` invocation. -/
inductive StreamOp
  | callStreamAudio (chunk : List Nat) (k : Nat)
  | callProcessStep (k : Nat)
  | callClose
  deriving DecidableEq, Repr

/-- Apply one buffer operation, collecting the forwarded chunks. -/
def applyStreamOp (s : StreamSessionState) : StreamOp → StreamSessionState × List (List Nat)
  | .callStreamAudio chunk k => streamAudio s chunk k
  | .callProcessStep k => processAudioQueueStep s k
  | .callClose =>
    (if !s.isActive then s else { s with isActive := false, audioBufferQueue := [] }, [])

/-- Run a sequence of buffer operations from a starting state. -/
def runStreamOps (s : StreamSessionState) : List StreamOp → StreamSessionState
  | [] => s
  | op :: rest => runStreamOps (applyStreamOp s op).1 rest

/-- Source `parseToolUseContentForWeather`: a string `content` field that
parses yields its coordinates; everything else (missing object, non-string
content, parse failure) yields `null`. -/
def parseToolUseContentForWeather : Option ToolContent → Option (String × String)
  | none => none
  | some .nonString => none
  | some (.unparseable _) => none
  | some (.coords lat lon) => some (lat, lon)

/-- JavaScript `String.prototype.toLowerCase` restricted to ASCII, which is
all the tool-name comparison in `processToolUse` needs (both built-in tool
names are ASCII). -/
def toLowerAscii (s : String) : String :=
  String.mk (s.data.map fun c => if c.isUpper then Char.ofNat (c.toNat + 32) else c)

/-- Source `processToolUse`.  Matching is on `toolName.toLowerCase()`.  The
date/time tool always succeeds (its clock-derived fields are abstracted by
`ToolsResult.dateTime`); the weather tool throws when the parsed content is
`null` and otherwise performs the HTTP fetch, whose success or failure is
the oracle `net`; any other name throws `Tool ... not supported`. -/
def processToolUse (net : String → String → Except String Unit)
    (toolName : String) (toolUseContent : Option ToolContent) :
    Except String ToolsResult :=
  let tool := toLowerAscii toolName
  if tool = "getdateandtimetool" then
    .ok .dateTime
  else if tool = "getweathertool" then
    match parseToolUseContentForWeather toolUseContent with
    | none => .error "parsedContent is undefined"
    | some (lat, lon) =>
      match net lat lon with
      | .ok _ => .ok (.weather lat lon)
      | .error e => .error e
  else
    .error ("Tool " ++ tool ++ " not supported")

/-- Decoded payload of a response chunk that carries bytes, as classified by
the `if`/`else if` chain in `processResponseStream`.  `malformed` is a
`JSON.parse` failure; `otherEvent k` is an event object whose first key is
none of the recognised ones; `emptyChunk b` is an object without an `event`
key (`b` records whether the top-level object has any key at all). -/
inductive ChunkContent
  | malformed
  | contentStart (d : String)
  | textOutput (d : String)
  | audioOutput (d : String)
  | toolUse (toolUseId toolName : String) (content : ToolContent)
  | contentEndTool
  | contentEndOther (d : String)
  | otherEvent (firstKey : String)
  | emptyChunk (topLevelNonEmpty : Bool)
  deriving DecidableEq, Repr

/-- One item pulled from the response body: a byte chunk, one of the two
stream-level error events, an item with neither (ignored), or a pull that
throws out of the `for await` loop. -/
inductive StreamItem
  | chunk (c : ChunkContent)
  | modelStreamErrorException
  | internalServerException
  | otherItem
  | raises
  deriving DecidableEq, Repr

/-- Observable step taken by the response loop: a call to `dispatchEvent`
with the given event type, the `await processToolUse` call, or one
`addEventToSessionQueue` call made by `sendToolResult`. -/
inductive Action
  | dispatch (eventType : String)
  | toolInvoke (toolName : String)
  | enqueue (e : OutEvent)
  deriving DecidableEq, Repr

/-- Source `sendToolResult`: return silently when the session is missing or
inactive; otherwise enqueue the `contentStart(TOOL)` / `toolResult` /
`contentEnd` triplet under a fresh content id.  The trace records the three
enqueue calls. -/
def sendToolResultTraced (st : ClientState) (sessionId toolUseId : String)
    (result : ToolsResult) (contentId : String) (now : Nat) :
    ClientState × List Action :=
  match mapLookup st.activeSessions sessionId with
  | none => (st, [])
  | some session =>
    if !session.isActive then (st, [])
    else
      let e1 := OutEvent.contentStartTool session.promptName contentId toolUseId
      let e2 := OutEvent.toolResult session.promptName contentId result
      let e3 := OutEvent.contentEnd session.promptName contentId
      let st1 := addEventToSessionQueue st sessionId e1 now
      let st2 := addEventToSessionQueue st1 sessionId e2 now
      let st3 := addEventToSessionQueue st2 sessionId e3 now
      (st3, [Action.enqueue e1, Action.enqueue e2, Action.enqueue e3])

/-- Store the tool-use correlation scratch fields on the session record
(lines in `processResponseStream` handling `event.toolUse`). -/
def storeToolUseScratch (st : ClientState) (sessionId toolUseId toolName : String)
    (content : ToolContent) : ClientState :=
  match mapLookup st.activeSessions sessionId with
  | none => st
  | some s =>
    { st with
        activeSessions := mapInsert st.activeSessions sessionId
          { s with toolUseContent := some content, toolUseId := toolUseId,
                   toolName := toolName } }

/-- Processing of one byte-carrying chunk inside the response loop:
`updateSessionActivity`, then dispatch according to the decoded event.  For
a `contentEnd` of type `TOOL` the loop dispatches `toolEnd`, awaits
`processToolUse`, and on success runs `sendToolResult` and dispatches
`toolResult`; a tool failure is swallowed by the enclosing parse-error
`catch` and the loop moves on.  `tc` counts tool calls so far and indexes
the UUID oracle used for the tool-result content id. -/
def handleChunkBytes (net : String → String → Except String Unit) (uuid : Nat → String)
    (sessionId : String) (now : Nat) (st : ClientState) (tc : Nat) :
    ChunkContent → ClientState × Nat × List Action
  | .malformed => (updateSessionActivity st sessionId now, tc, [])
  | .contentStart _ =>
    (updateSessionActivity st sessionId now, tc, [Action.dispatch "contentStart"])
  | .textOutput _ =>
    (updateSessionActivity st sessionId now, tc, [Action.dispatch "textOutput"])
  | .audioOutput _ =>
    (updateSessionActivity st sessionId now, tc, [Action.dispatch "audioOutput"])
  | .toolUse tid tname content =>
    let st0 := updateSessionActivity st sessionId now
    (storeToolUseScratch st0 sessionId tid tname content, tc, [Action.dispatch "toolUse"])
  | .contentEndTool =>
    let st0 := updateSessionActivity st sessionId now
    match mapLookup st0.activeSessions sessionId with
    | none => (st0, tc, [Action.dispatch "toolEnd"])
    | some session =>
      let acts0 := [Action.dispatch "toolEnd", Action.toolInvoke session.toolName]
      match processToolUse net session.toolName session.toolUseContent with
      | .error _ => (st0, tc, acts0)
      | .ok r =>
        let res := sendToolResultTraced st0 sessionId session.toolUseId r (uuid tc) now
        (res.1, tc + 1, acts0 ++ res.2 ++ [Action.dispatch "toolResult"])
  | .contentEndOther _ =>
    (updateSessionActivity st sessionId now, tc, [Action.dispatch "contentEnd"])
  | .otherEvent k =>
    (updateSessionActivity st sessionId now, tc, [Action.dispatch k])
  | .emptyChunk topLevelNonEmpty =>
    (updateSessionActivity st sessionId now, tc,
     if topLevelNonEmpty then [Action.dispatch "unknown"] else [])

/-- Processing of one pulled response item (other than a throwing pull):
byte chunks go to `handleChunkBytes`; the two stream-level error events each
dispatch `error`; anything else is ignored. -/
def handleItem (net : String → String → Except String Unit) (uuid : Nat → String)
    (sessionId : String) (now : Nat) (st : ClientState) (tc : Nat) :
    StreamItem → ClientState × Nat × List Action
  | .chunk c => handleChunkBytes net uuid sessionId now st tc c
  | .modelStreamErrorException => (st, tc, [Action.dispatch "error"])
  | .internalServerException => (st, tc, [Action.dispatch "error"])
  | .otherItem => (st, tc, [])
  | .raises => (st, tc, [])

/-- Result of running the `for await` loop of `processResponseStream`:
final registry state, tool-call count, ordered action trace, whether the
iteration threw (reaching the outer `catch`), and whether the loop `break`ed
because the session went inactive. -/
structure LoopResult where
  state : ClientState
  toolCalls : Nat
  trace : List Action
  threw : Bool
  broke : Bool
  deriving DecidableEq, Repr

/-- The `for await` loop of `processResponseStream`: pull an item (a
throwing pull escapes to the outer catch), break if the session is inactive,
otherwise handle the item and continue. -/
def runResponseItems (net : String → String → Except String Unit) (uuid : Nat → String)
    (sessionId : String) (now : Nat) :
    ClientState → Nat → List StreamItem → LoopResult
  | st, tc, [] => ⟨st, tc, [], false, false⟩
  | st, tc, item :: rest =>
    if item = StreamItem.raises then ⟨st, tc, [], true, false⟩
    else if sessionActiveB st sessionId = false then ⟨st, tc, [], false, true⟩
    else
      let h := handleItem net uuid sessionId now st tc item
      let r := runResponseItems net uuid sessionId now h.1 h.2.1 rest
      ⟨r.state, r.toolCalls, h.2.2 ++ r.trace, r.threw, r.broke⟩

/-- Source `processResponseStream`: return immediately when the session is
unknown; otherwise run the response loop, then dispatch `streamComplete` on
natural termination of the body, or `error` (source `responseStream`) when
the iteration threw.  The second component is the ordered trace of
`dispatchEvent` calls, tool invocations and tool-result enqueues.  The
10-second no-events warning timer runs on real time and is not modelled. -/
def processResponseStream (net : String → String → Except String Unit)
    (uuid : Nat → String) (st : ClientState) (sessionId : String)
    (items : List StreamItem) (now : Nat) : ClientState × List Action :=
  match mapLookup st.activeSessions sessionId with
  | none => (st, [])
  | some _ =>
    let r := runResponseItems net uuid sessionId now st 0 items
    if r.threw then (r.state, r.trace ++ [Action.dispatch "error"])
    else (r.state, r.trace ++ [Action.dispatch "streamComplete"])

/-- Outcome of the `Promise.race` in the iterator's wait phase: the
`queueSignal` fired, the `closeSignal` fired (the race throws
`Stream closed`), or the 10-second timer rejected first. -/
inductive WaitOutcome
  | signaled
  | closed
  | timedOut
  deriving DecidableEq, Repr

/-- Result of one `next()` call on the session's request-body iterator. -/
inductive IterResult
  | yield (e : OutEvent)
  | done
  deriving DecidableEq, Repr

/-- Is this event an `AUDIO` `contentStart` (the iterator's special case)? -/
def isContentStartAudio : OutEvent → Bool
  | .contentStartAudio _ _ => true
  | _ => false

/-- The `next` method of the iterator built by `createSessionAsyncIterable`,
for one call.  In source order: (a) finish when the session is inactive or
unregistered; (b) when the queue is empty and no item was ever produced
(`eventCount = 0`), re-seed `sessionStart` via `setupSessionStartEvent` and
sleep 500 ms; (c) when the queue is (still) empty, wait on the race of
`queueSignal`, `closeSignal` and a 10-second timer — `arrivals` are the
events other tasks enqueue before the race settles, and a `closed` outcome
finishes; a timeout falls through its `catch`; (d) finish when the queue is
still empty or the session inactive; (e) otherwise shift the head event,
count it, record an `AUDIO` `contentStart`, and yield it.  Returns the
result, the new registry state, and the new `eventCount`. -/
def iterNext (st : ClientState) (sessionId : String) (eventCount : Nat)
    (w : WaitOutcome) (arrivals : List OutEvent) (now : Nat) :
    IterResult × ClientState × Nat :=
  match mapLookup st.activeSessions sessionId with
  | none => (.done, st, eventCount)
  | some session0 =>
    if !session0.isActive then (.done, st, eventCount)
    else
      let stB := if session0.queue.isEmpty && eventCount == 0
                 then setupSessionStartEvent st sessionId now else st
      let sB := (mapLookup stB.activeSessions sessionId).getD session0
      let waited := sB.queue.isEmpty
      let stC := if waited
                 then arrivals.foldl (fun a e => addEventToSessionQueue a sessionId e now) stB
                 else stB
      if waited = true ∧ w = WaitOutcome.closed then (.done, stC, eventCount)
      else
        let sC := (mapLookup stC.activeSessions sessionId).getD sB
        if sC.queue.isEmpty || !sC.isActive then (.done, stC, eventCount)
        else
          match sC.queue with
          | [] => (.done, stC, eventCount)
          | e :: rest =>
            let sD := { sC with
              queue := rest,
              isAudioContentStartSent :=
                if isContentStartAudio e then true else sC.isAudioContentStartSent }
            (.yield e,
             { stC with activeSessions := mapInsert stC.activeSessions sessionId sD },
             eventCount + 1)

/-- Behavior of one registered handler at the dispatched data: it either
returns or throws the given message. -/
def HandlerBehavior : Type := Except String Unit

/-- The `try ... catch (e) \x7b console.error(...) \x7d` wrapper around each
handler call in `dispatchEvent`: a throwing handler is logged and the
exception swallowed. -/
def tryCatchLog (h : Except String Unit) : Except String Unit :=
  match h with
  | .ok _ => .ok ()
  | .error _ => .ok ()

/-- Source `dispatchEvent`: return when the session is not registered;
otherwise call the kind-specific handler (if any) inside `try`/`catch`, then
the `any` handler (if any) inside its own `try`/`catch`.  The result lists
the handler keys invoked, in order, inside the exception monad of the
enclosing response loop — an `Except.error` result would mean an exception
escaping into the caller. -/
def dispatchEvent (session : Option (List (String × HandlerBehavior)))
    (eventType : String) : Except String (List String) :=
  match session with
  | none => .ok []
  | some handlers => do
    let l1 ← match mapLookup handlers eventType with
      | some h => do
        let _ ← tryCatchLog h
        pure [eventType]
      | none => pure ([] : List String)
    match mapLookup handlers "any" with
    | some h => do
      let _ ← tryCatchLog h
      pure (l1 ++ ["any"])
    | none => pure l1

/-- A freshly created session record (as `createStreamSession` builds it),
registered under id `s1` in the sample states below. -/
def sampleActiveSession : SessionData :=
  { queue := [], queueSignalCount := 0, closeSignalFired := false,
    closeSignalCompleted := false, toolUseContent := none, toolUseId := "",
    toolName := "", promptName := "p1", isActive := true,
    isAudioContentStartSent := false, audioContentId := "a1" }

/-- The same session after something (an iterator `return`, an API error)
cleared its active flag while it stayed registered. -/
def sampleInactiveSession : SessionData :=
  { sampleActiveSession with isActive := false }

/-- Registry holding exactly the given session under id `s1`. -/
def sampleStateWith (s : SessionData) : ClientState :=
  { activeSessions := [("s1", s)], sessionLastActivity := [("s1", 5)],
    sessionCleanupInProgress := [] }

/-- A `StreamSession` whose audio buffer is at the configured bound. -/
def fullBufferSession : StreamSessionState :=
  { audioBufferQueue := List.replicate maxQueueSize [0], isProcessingAudio := false,
    isActive := true }

/-- A `StreamSession` after `close()`. -/
def closedLocalSession : StreamSessionState :=
  { audioBufferQueue := [], isProcessingAudio := false, isActive := false }

/-- C1, counterexample.  A session can be present in the registry with its
`isActive` flag already cleared (for example after the request-body
iterator's `return()` ran).  On such a session `sendSessionEnd` still tears
everything down, but `addEventToSessionQueue` silently drops the
`sessionEnd` event, so no `sessionEnd` is appended to the outbound queue —
contradicting the claim that the append happens for every registered
session. -/
theorem sendSessionEnd_inactive_counterexample :
    mapLookup (sampleStateWith sampleInactiveSession).activeSessions "s1" =
      some sampleInactiveSession ∧
    ((sendSessionEnd (sampleStateWith sampleInactiveSession) "s1" 9).2.map
      SessionData.queue) = some sampleInactiveSession.queue ∧
    OutEvent.sessionEnd ∉ sampleInactiveSession.queue := by
  decide

/-- C1, amended.  For every registered session whose `isActive` flag is still
set, `sendSessionEnd` appends `sessionEnd` as the last event of the outbound
queue, clears the active flag, fires and completes `closeSignal`, and
removes both the session record and its last-activity timestamp from the
registry. -/
theorem sendSessionEnd_active_teardown (st : ClientState) (sessionId : String)
    (s : SessionData) (now : Nat)
    (hs : mapLookup st.activeSessions sessionId = some s)
    (hact : s.isActive = true) :
    ((sendSessionEnd st sessionId now).2.map SessionData.queue) =
      some (s.queue ++ [OutEvent.sessionEnd]) ∧
    ((sendSessionEnd st sessionId now).2.map SessionData.isActive) = some false ∧
    ((sendSessionEnd st sessionId now).2.map SessionData.closeSignalFired) = some true ∧
    ((sendSessionEnd st sessionId now).2.map SessionData.closeSignalCompleted) = some true ∧
    mapLookup (sendSessionEnd st sessionId now).1.activeSessions sessionId = none ∧
    mapLookup (sendSessionEnd st sessionId now).1.sessionLastActivity sessionId = none := by
  simp [sendSessionEnd, addEventToSessionQueue, updateSessionActivity, hs, hact,
    mapLookup_mapInsert_self, mapLookup_mapErase_self]

/-- C1, witness for the amended theorem at the sample active session. -/
theorem sendSessionEnd_active_teardown_witness :
    ((sendSessionEnd (sampleStateWith sampleActiveSession) "s1" 9).2.map
      SessionData.queue) = some (sampleActiveSession.queue ++ [OutEvent.sessionEnd]) ∧
    ((sendSessionEnd (sampleStateWith sampleActiveSession) "s1" 9).2.map
      SessionData.isActive) = some false ∧
    ((sendSessionEnd (sampleStateWith sampleActiveSession) "s1" 9).2.map
      SessionData.closeSignalFired) = some true ∧
    ((sendSessionEnd (sampleStateWith sampleActiveSession) "s1" 9).2.map
      SessionData.closeSignalCompleted) = some true ∧
    mapLookup (sendSessionEnd (sampleStateWith sampleActiveSession) "s1" 9).1.activeSessions
      "s1" = none ∧
    mapLookup (sendSessionEnd (sampleStateWith sampleActiveSession) "s1" 9).1.sessionLastActivity
      "s1" = none :=
  sendSessionEnd_active_teardown (sampleStateWith sampleActiveSession) "s1"
    sampleActiveSession 9 (by decide) (by decide)

theorem enqueueAudio_length_le (s : StreamSessionState) (chunk : List Nat)
    (h : s.audioBufferQueue.length ≤ maxQueueSize) :
    (enqueueAudio s chunk).audioBufferQueue.length ≤ maxQueueSize := by
  by_cases hc : maxQueueSize ≤ s.audioBufferQueue.length
  · simp only [enqueueAudio, if_pos hc, List.length_append, List.length_tail,
      List.length_cons, List.length_nil]
    simp only [maxQueueSize] at h hc ⊢
    omega
  · simp only [enqueueAudio, if_neg hc, List.length_append, List.length_cons,
      List.length_nil]
    simp only [maxQueueSize] at h hc ⊢
    omega

theorem processAudioQueueStep_length_le (s : StreamSessionState) (k : Nat)
    (h : s.audioBufferQueue.length ≤ maxQueueSize) :
    (processAudioQueueStep s k).1.audioBufferQueue.length ≤ maxQueueSize := by
  by_cases hg : (s.isProcessingAudio || s.audioBufferQueue.isEmpty || !s.isActive) = true
  · simpa [processAudioQueueStep, hg] using h
  · simp only [Bool.not_eq_true] at hg
    simp only [processAudioQueueStep, hg, Bool.false_eq_true, if_false, List.length_drop]
    omega

theorem applyStreamOp_length_le (s : StreamSessionState) (op : StreamOp)
    (h : s.audioBufferQueue.length ≤ maxQueueSize) :
    (applyStreamOp s op).1.audioBufferQueue.length ≤ maxQueueSize := by
  cases op with
  | callStreamAudio chunk k =>
    exact processAudioQueueStep_length_le _ k (enqueueAudio_length_le s chunk h)
  | callProcessStep k => exact processAudioQueueStep_length_le s k h
  | callClose =>
    by_cases ha : s.isActive = true
    · simp [applyStreamOp, ha]
    · simpa [applyStreamOp, ha] using h

theorem runStreamOps_length_le (ops : List StreamOp) (s : StreamSessionState)
    (h : s.audioBufferQueue.length ≤ maxQueueSize) :
    (runStreamOps s ops).audioBufferQueue.length ≤ maxQueueSize := by
  induction ops generalizing s with
  | nil => simpa [runStreamOps] using h
  | cons op rest ih =>
    simp only [runStreamOps]
    exact ih _ (applyStreamOp_length_le s op h)

/-- C4.  (1) Along every sequence of `streamAudio` calls, `processAudioQueue`
invocations and `close` calls starting from a fresh `StreamSession`, the
audio buffer never holds more than `maxQueueSize = 200` chunks; (2) when a
chunk arrives with the buffer at the bound, the oldest chunk is shifted out
before the new one is appended; (3) an `addEventToSessionQueue` call never
removes anything from the outbound queue — the target session's queue is
either unchanged (silent drop) or extended by the new event at the end, so
no queued (in particular non-audio) event is ever dropped by the enqueue
path. -/
theorem audio_queue_bound (ops : List StreamOp) (s : StreamSessionState)
    (chunk : List Nat) (st : ClientState) (sessionId : String) (e : OutEvent)
    (now : Nat) (hfull : s.audioBufferQueue.length = maxQueueSize) :
    (runStreamOps initialStreamSession ops).audioBufferQueue.length ≤ maxQueueSize ∧
    (enqueueAudio s chunk).audioBufferQueue = s.audioBufferQueue.tail ++ [chunk] ∧
    (sessionQueue (addEventToSessionQueue st sessionId e now) sessionId =
        sessionQueue st sessionId ∨
      sessionQueue (addEventToSessionQueue st sessionId e now) sessionId =
        (sessionQueue st sessionId).map (fun q => q ++ [e])) := by
  refine ⟨runStreamOps_length_le ops initialStreamSession (by simp [initialStreamSession]),
    ?_, ?_⟩
  · simp [enqueueAudio, hfull]
  · match hlk : mapLookup st.activeSessions sessionId with
    | none =>
      left
      simp [sessionQueue, addEventToSessionQueue, hlk]
    | some s' =>
      by_cases ha : s'.isActive = true
      · right
        simp [sessionQueue, addEventToSessionQueue, updateSessionActivity, hlk, ha,
          mapLookup_mapInsert_self]
      · left
        simp only [Bool.not_eq_true] at ha
        simp [sessionQueue, addEventToSessionQueue, hlk, ha]

/-- C4, witness at the bound. -/
theorem audio_queue_bound_witness :
    (runStreamOps initialStreamSession []).audioBufferQueue.length ≤ maxQueueSize ∧
    (enqueueAudio fullBufferSession [7]).audioBufferQueue =
      fullBufferSession.audioBufferQueue.tail ++ [[7]] ∧
    (sessionQueue (addEventToSessionQueue (sampleStateWith sampleActiveSession) "s1"
          OutEvent.sessionEnd 4) "s1" =
        sessionQueue (sampleStateWith sampleActiveSession) "s1" ∨
      sessionQueue (addEventToSessionQueue (sampleStateWith sampleActiveSession) "s1"
          OutEvent.sessionEnd 4) "s1" =
        (sessionQueue (sampleStateWith sampleActiveSession) "s1").map
          (fun q => q ++ [OutEvent.sessionEnd])) :=
  audio_queue_bound [] fullBufferSession [7] (sampleStateWith sampleActiveSession) "s1"
    OutEvent.sessionEnd 4 (by simp [fullBufferSession])

/-- C6, counterexample.  On a registered but inactive session,
`streamAudioChunk` does not silently drop the chunk: it throws an
`Invalid session ... for audio streaming` error to its caller. -/
theorem streamAudioChunk_inactive_counterexample :
    (mapLookup (sampleStateWith sampleInactiveSession).activeSessions "s1").map
      SessionData.isActive = some false ∧
    streamAudioChunk (sampleStateWith sampleInactiveSession) "s1" [1, 2] 3 =
      Except.error "Invalid session s1 for audio streaming" :=
  ⟨by decide, by simp [streamAudioChunk, sampleStateWith, sampleInactiveSession,
    sampleActiveSession, mapLookup]⟩

/-- C6, amended.  Once a registered session's `isActive` flag is false,
`addEventToSessionQueue` leaves the whole registry state (queue, queue
signal, last-activity timestamp) unchanged and silently drops the event,
while `streamAudioChunk` also changes no state but rejects its caller with
an invalid-session error instead of dropping silently. -/
theorem inactive_enqueue_behavior (st : ClientState) (sessionId : String)
    (s : SessionData) (e : OutEvent) (chunk : List Nat) (now : Nat)
    (hs : mapLookup st.activeSessions sessionId = some s)
    (hinact : s.isActive = false) :
    addEventToSessionQueue st sessionId e now = st ∧
    streamAudioChunk st sessionId chunk now =
      Except.error ("Invalid session " ++ sessionId ++ " for audio streaming") := by
  constructor
  · simp [addEventToSessionQueue, hs, hinact]
  · simp [streamAudioChunk, hs, hinact]

/-- C6, witness for the amended theorem. -/
theorem inactive_enqueue_behavior_witness :
    addEventToSessionQueue (sampleStateWith sampleInactiveSession) "s1"
      OutEvent.sessionEnd 4 = sampleStateWith sampleInactiveSession ∧
    streamAudioChunk (sampleStateWith sampleInactiveSession) "s1" [9] 4 =
      Except.error ("Invalid session " ++ "s1" ++ " for audio streaming") :=
  inactive_enqueue_behavior (sampleStateWith sampleInactiveSession) "s1"
    sampleInactiveSession OutEvent.sessionEnd [9] 4 (by decide) (by decide)

/-- C9.  `forceCloseSession` is idempotent: a second call on the same id
finds the session gone and changes nothing (and touches no session object),
so the registry, last-activity map, cleanup-in-progress set and session
state after two calls are exactly those after one; a call on an unknown
session id, or while cleanup for the id is already in progress, changes no
state at all. -/
theorem forceCloseSession_idempotent (st : ClientState) (sessionId : String) :
    forceCloseSession (forceCloseSession st sessionId).1 sessionId =
      ((forceCloseSession st sessionId).1, none) ∧
    (setHas st.sessionCleanupInProgress sessionId = true →
      forceCloseSession st sessionId = (st, none)) ∧
    (mapLookup st.activeSessions sessionId = none →
      forceCloseSession st sessionId = (st, none)) := by
  refine ⟨?_, ?_, ?_⟩
  · by_cases hin : setHas st.sessionCleanupInProgress sessionId = true
    · simp [forceCloseSession, hin]
    · simp only [Bool.not_eq_true] at hin
      match hlk : mapLookup st.activeSessions sessionId with
      | none => simp [forceCloseSession, hin, hlk]
      | some s =>
        simp [forceCloseSession, hin, hlk, mapLookup_mapErase_self]
  · intro hin
    simp [forceCloseSession, hin]
  · intro hlk
    simp [forceCloseSession, hlk]

/-- Registry in which cleanup for session `s1` is already marked in
progress. -/
def cleanupInProgressState : ClientState :=
  { sampleStateWith sampleActiveSession with sessionCleanupInProgress := ["s1"] }

/-- An empty registry. -/
def emptyClientState : ClientState :=
  { activeSessions := [], sessionLastActivity := [], sessionCleanupInProgress := [] }

/-- C9, witness: closing the sample session twice equals closing it once;
a call while cleanup is in progress, or on an unknown id, is a no-op. -/
theorem forceCloseSession_idempotent_witness :
    (forceCloseSession (forceCloseSession (sampleStateWith sampleActiveSession) "s1").1 "s1" =
      ((forceCloseSession (sampleStateWith sampleActiveSession) "s1").1, none)) ∧
    (forceCloseSession cleanupInProgressState "s1" = (cleanupInProgressState, none)) ∧
    (forceCloseSession emptyClientState "zz" = (emptyClientState, none)) :=
  ⟨(forceCloseSession_idempotent (sampleStateWith sampleActiveSession) "s1").1,
   (forceCloseSession_idempotent cleanupInProgressState "s1").2.1 (by decide),
   (forceCloseSession_idempotent emptyClientState "zz").2.2 (by decide)⟩

/-- C10.  After `StreamSession.close()` the local flag is cleared and the
buffer emptied; from then on every `streamAudio` call returns normally,
keeps the chunk only in the local buffer (still with the drop-oldest bound),
and forwards nothing to `streamAudioChunk` — so no `audioInput` event can
reach the upstream outbound queue — because `processAudioQueue` returns
immediately for an inactive session. -/
theorem closed_session_audio (s s2 : StreamSessionState) (client : ClientState)
    (sessionId : String) (now : Nat) (c2 : List Nat) (k2 : Nat)
    (hact : s.isActive = true) (hinact : s2.isActive = false) :
    (closeStreamSession s client sessionId now).1.isActive = false ∧
    (closeStreamSession s client sessionId now).1.audioBufferQueue = [] ∧
    (streamAudio s2 c2 k2).2 = [] ∧
    (streamAudio s2 c2 k2).1 = enqueueAudio s2 c2 ∧
    (enqueueAudio s2 c2).audioBufferQueue =
      (if maxQueueSize ≤ s2.audioBufferQueue.length then s2.audioBufferQueue.tail
       else s2.audioBufferQueue) ++ [c2] ∧
    (streamAudio s2 c2 k2).1.isActive = false := by
  refine ⟨?_, ?_, ?_, ?_, rfl, ?_⟩ <;>
    simp [closeStreamSession, streamAudio, processAudioQueueStep, enqueueAudio, hact, hinact]

/-- C10, witness: closing the fresh session, then streaming one chunk into a
closed session. -/
theorem closed_session_audio_witness :
    (closeStreamSession initialStreamSession (sampleStateWith sampleActiveSession)
      "s1" 9).1.isActive = false ∧
    (closeStreamSession initialStreamSession (sampleStateWith sampleActiveSession)
      "s1" 9).1.audioBufferQueue = [] ∧
    (streamAudio closedLocalSession [3] 1).2 = [] ∧
    (streamAudio closedLocalSession [3] 1).1 = enqueueAudio closedLocalSession [3] ∧
    (enqueueAudio closedLocalSession [3]).audioBufferQueue =
      (if maxQueueSize ≤ closedLocalSession.audioBufferQueue.length
       then closedLocalSession.audioBufferQueue.tail
       else closedLocalSession.audioBufferQueue) ++ [[3]] ∧
    (streamAudio closedLocalSession [3] 1).1.isActive = false :=
  closed_session_audio initialStreamSession closedLocalSession
    (sampleStateWith sampleActiveSession) "s1" 9 [3] 1 rfl rfl

/-- C7.  When the kind-specific handler throws, `dispatchEvent` swallows the
exception: it still invokes the `any` handler if one is registered,
returns normally (an `Except.ok` result, so nothing propagates into the
response loop), and the invocation list is exactly the kind handler
followed by the `any` handler. -/
theorem dispatchEvent_handler_isolation (handlers : List (String × HandlerBehavior))
    (eventType msg : String)
    (hk : mapLookup handlers eventType = some (Except.error msg)) :
    dispatchEvent (some handlers) eventType =
      Except.ok ([eventType] ++
        (if (mapLookup handlers "any").isSome then ["any"] else [])) := by
  match hany : mapLookup handlers "any" with
  | none => simp [dispatchEvent, hk, hany, tryCatchLog]
  | some h2 =>
    cases h2 with
    | ok u =>
      simp [dispatchEvent, hk, hany, tryCatchLog, Bind.bind, Except.bind, Pure.pure,
        Except.pure]
    | error e =>
      simp [dispatchEvent, hk, hany, tryCatchLog, Bind.bind, Except.bind, Pure.pure,
        Except.pure]

/-- Handler map where the kind handler for `textOutput` throws and an `any`
handler is registered. -/
def throwingHandlers : List (String × HandlerBehavior) :=
  [("textOutput", Except.error "boom"), ("any", Except.ok ())]

/-- C7, witness: the throwing `textOutput` handler does not prevent the
`any` handler from running, and `dispatchEvent` returns normally. -/
theorem dispatchEvent_handler_isolation_witness :
    dispatchEvent (some throwingHandlers) "textOutput" =
      Except.ok (["textOutput"] ++
        (if (mapLookup throwingHandlers "any").isSome then ["any"] else [])) :=
  dispatchEvent_handler_isolation throwingHandlers "textOutput" "boom" (by rfl)

/-- C8.  `processToolUse` succeeds only for the closed set of two built-in
tools: any name whose lowercased form is neither `getdateandtimetool` nor
`getweathertool` fails with a `Tool ... not supported` error; matching
depends only on the lowercased name, so it is case-insensitive; and when the
response loop handles a `contentEnd` of type `TOOL` whose stored tool name
is unsupported, the loop performs no enqueue action — no tool-result content
block reaches the outbound queue — and leaves the registry (beyond the
last-activity update) untouched. -/
theorem processToolUse_closed_set (net : String → String → Except String Unit)
    (name n1 n2 : String) (c : Option ToolContent) (st : ClientState)
    (sessionId : String) (uuid : Nat → String) (tc : Nat) (now : Nat)
    (s : SessionData)
    (hn1 : toLowerAscii name ≠ "getdateandtimetool")
    (hn2 : toLowerAscii name ≠ "getweathertool")
    (hcase : toLowerAscii n1 = toLowerAscii n2)
    (hs : mapLookup st.activeSessions sessionId = some s)
    (hname : s.toolName = name) :
    processToolUse net name c =
      Except.error ("Tool " ++ toLowerAscii name ++ " not supported") ∧
    processToolUse net n1 c = processToolUse net n2 c ∧
    (handleChunkBytes net uuid sessionId now st tc ChunkContent.contentEndTool).2.2 =
      [Action.dispatch "toolEnd", Action.toolInvoke name] ∧
    (handleChunkBytes net uuid sessionId now st tc ChunkContent.contentEndTool).1 =
      updateSessionActivity st sessionId now := by
  have hs0 : mapLookup (updateSessionActivity st sessionId now).activeSessions sessionId =
      some s := hs
  refine ⟨?_, ?_, ?_, ?_⟩
  · simp [processToolUse, hn1, hn2]
  · simp only [processToolUse, hcase]
  · simp [handleChunkBytes, hs0, hname, processToolUse, hn1, hn2]
  · simp [handleChunkBytes, hs0, hname, processToolUse, hn1, hn2]

/-- A session whose scratch tool name is an unsupported tool. -/
def unsupportedToolSession : SessionData :=
  { sampleActiveSession with toolName := "fooTool" }

/-- C8, witness: an unsupported tool name (case-insensitively unknown)
fails, the two spellings of the date tool agree, and the loop enqueues
nothing for it. -/
theorem processToolUse_closed_set_witness :
    processToolUse (fun _ _ => Except.ok ()) "fooTool" none =
      Except.error ("Tool " ++ toLowerAscii "fooTool" ++ " not supported") ∧
    processToolUse (fun _ _ => Except.ok ()) "GetDateAndTimeTool" none =
      processToolUse (fun _ _ => Except.ok ()) "getdateandtimetool" none ∧
    (handleChunkBytes (fun _ _ => Except.ok ()) (fun _ => "cid0") "s1" 4
        (sampleStateWith unsupportedToolSession) 0 ChunkContent.contentEndTool).2.2 =
      [Action.dispatch "toolEnd", Action.toolInvoke "fooTool"] ∧
    (handleChunkBytes (fun _ _ => Except.ok ()) (fun _ => "cid0") "s1" 4
        (sampleStateWith unsupportedToolSession) 0 ChunkContent.contentEndTool).1 =
      updateSessionActivity (sampleStateWith unsupportedToolSession) "s1" 4 :=
  processToolUse_closed_set (fun _ _ => Except.ok ()) "fooTool" "GetDateAndTimeTool"
    "getdateandtimetool" none (sampleStateWith unsupportedToolSession) "s1"
    (fun _ => "cid0") 0 4 unsupportedToolSession (by decide) (by decide) (by decide)
    (by decide) (by decide)

theorem sessionActiveB_addEvent (st : ClientState) (sessionId : String) (e : OutEvent)
    (now : Nat) :
    sessionActiveB (addEventToSessionQueue st sessionId e now) sessionId =
      sessionActiveB st sessionId := by
  match hlk : mapLookup st.activeSessions sessionId with
  | none => simp [addEventToSessionQueue, hlk]
  | some s =>
    by_cases ha : s.isActive = true
    · simp [sessionActiveB, addEventToSessionQueue, updateSessionActivity, hlk, ha,
        mapLookup_mapInsert_self]
    · simp only [Bool.not_eq_true] at ha
      simp [addEventToSessionQueue, hlk, ha]

theorem sessionActiveB_storeToolUseScratch (st : ClientState) (sessionId tid tn : String)
    (c : ToolContent) :
    sessionActiveB (storeToolUseScratch st sessionId tid tn c) sessionId =
      sessionActiveB st sessionId := by
  match hlk : mapLookup st.activeSessions sessionId with
  | none => simp [storeToolUseScratch, hlk]
  | some s =>
    simp [sessionActiveB, storeToolUseScratch, hlk, mapLookup_mapInsert_self]

theorem sessionActiveB_sendToolResultTraced (st : ClientState) (sessionId tid : String)
    (r : ToolsResult) (cid : String) (now : Nat) :
    sessionActiveB (sendToolResultTraced st sessionId tid r cid now).1 sessionId =
      sessionActiveB st sessionId := by
  match hlk : mapLookup st.activeSessions sessionId with
  | none => simp [sendToolResultTraced, hlk]
  | some s =>
    by_cases ha : s.isActive = true
    · simp only [sendToolResultTraced, hlk, ha, Bool.not_true, Bool.false_eq_true,
        if_false]
      rw [sessionActiveB_addEvent, sessionActiveB_addEvent, sessionActiveB_addEvent]
    · simp only [Bool.not_eq_true] at ha
      simp [sendToolResultTraced, hlk, ha]

theorem sessionActiveB_handleChunkBytes (net : String → String → Except String Unit)
    (uuid : Nat → String) (sessionId : String) (now : Nat) (st : ClientState)
    (tc : Nat) (c : ChunkContent) :
    sessionActiveB (handleChunkBytes net uuid sessionId now st tc c).1 sessionId =
      sessionActiveB st sessionId := by
  have hupd : sessionActiveB (updateSessionActivity st sessionId now) sessionId =
      sessionActiveB st sessionId := rfl
  cases c with
  | malformed => exact hupd
  | contentStart d => exact hupd
  | textOutput d => exact hupd
  | audioOutput d => exact hupd
  | toolUse tid tn cc =>
    simp only [handleChunkBytes]
    rw [sessionActiveB_storeToolUseScratch]
    exact hupd
  | contentEndTool =>
    simp only [handleChunkBytes]
    split
    · exact hupd
    · split
      · exact hupd
      · rw [sessionActiveB_sendToolResultTraced]
        exact hupd
  | contentEndOther d => exact hupd
  | otherEvent k => exact hupd
  | emptyChunk b => exact hupd

theorem sessionActiveB_handleItem (net : String → String → Except String Unit)
    (uuid : Nat → String) (sessionId : String) (now : Nat) (st : ClientState)
    (tc : Nat) (item : StreamItem) :
    sessionActiveB (handleItem net uuid sessionId now st tc item).1 sessionId =
      sessionActiveB st sessionId := by
  cases item with
  | chunk c => exact sessionActiveB_handleChunkBytes net uuid sessionId now st tc c
  | modelStreamErrorException => rfl
  | internalServerException => rfl
  | otherItem => rfl
  | raises => rfl

theorem runResponseItems_no_raises_threw (net : String → String → Except String Unit)
    (uuid : Nat → String) (sessionId : String) (now : Nat) (st : ClientState)
    (tc : Nat) (items : List StreamItem) (h : StreamItem.raises ∉ items) :
    (runResponseItems net uuid sessionId now st tc items).threw = false := by
  induction items generalizing st tc with
  | nil => rfl
  | cons item rest ih =>
    have hne : item ≠ StreamItem.raises := fun he => h (he ▸ List.mem_cons_self item rest)
    have hrest : StreamItem.raises ∉ rest := fun hr => h (List.mem_cons_of_mem item hr)
    by_cases hact : sessionActiveB st sessionId = false
    · simp [runResponseItems, hne, hact]
    · simp [runResponseItems, hne, hact, ih _ _ hrest]

theorem runResponseItems_raises_threw (net : String → String → Except String Unit)
    (uuid : Nat → String) (sessionId : String) (now : Nat) (st : ClientState)
    (tc : Nat) (pre post : List StreamItem)
    (hact : sessionActiveB st sessionId = true)
    (hnr : StreamItem.raises ∉ pre) :
    (runResponseItems net uuid sessionId now st tc
      (pre ++ StreamItem.raises :: post)).threw = true := by
  induction pre generalizing st tc with
  | nil => simp [runResponseItems]
  | cons item rest ih =>
    have hne : item ≠ StreamItem.raises := fun he => hnr (he ▸ List.mem_cons_self item rest)
    have hrest : StreamItem.raises ∉ rest := fun hr => hnr (List.mem_cons_of_mem item hr)
    have hact2 : sessionActiveB
        (handleItem net uuid sessionId now st tc item).1 sessionId = true := by
      rw [sessionActiveB_handleItem]
      exact hact
    simp only [List.cons_append, runResponseItems, hne, hact, if_false]
    simp only [hact, Bool.true_eq_false, if_false, hne, ite_false]
    exact ih _ _ hact2 hrest

/-- C2, counterexample.  When pulling from the response body throws (the
transport failed mid-stream), `processResponseStream` reaches its outer
`catch` and dispatches a single `error` event with no `streamComplete` after
it — contradicting the claim that every dispatched `error` is followed by a
`streamComplete`. -/
theorem error_without_streamComplete_counterexample :
    (processResponseStream (fun _ _ => Except.ok ()) (fun _ => "cid0")
      (sampleStateWith sampleActiveSession) "s1" [StreamItem.raises] 4).2 =
      [Action.dispatch "error"] := by
  rfl

/-- C2, amended.  When the response body ends without the iteration throwing
(including after in-body `modelStreamErrorException` or
`internalServerException` events, which each dispatch an `error`), the
dispatch trace ends with a single final `streamComplete`, so every `error`
dispatched inside the loop is followed by a `streamComplete`.  When the
iteration throws, the trace ends with an `error` dispatch and no
`streamComplete` follows it. -/
theorem response_terminal_events (net : String → String → Except String Unit)
    (uuid : Nat → String) (st : ClientState) (sessionId : String)
    (items pre post : List StreamItem) (now : Nat) (s : SessionData)
    (hs : mapLookup st.activeSessions sessionId = some s) :
    (StreamItem.raises ∉ items →
      ∃ tr, (processResponseStream net uuid st sessionId items now).2 =
        tr ++ [Action.dispatch "streamComplete"]) ∧
    (s.isActive = true → items = pre ++ StreamItem.raises :: post →
      StreamItem.raises ∉ pre →
      ∃ tr, (processResponseStream net uuid st sessionId items now).2 =
        tr ++ [Action.dispatch "error"]) := by
  constructor
  · intro hnr
    have ht := runResponseItems_no_raises_threw net uuid sessionId now st 0 items hnr
    refine ⟨(runResponseItems net uuid sessionId now st 0 items).trace, ?_⟩
    simp [processResponseStream, hs, ht]
  · intro hact heq hnr
    have hactB : sessionActiveB st sessionId = true := by
      simp [sessionActiveB, hs, hact]
    subst heq
    have ht := runResponseItems_raises_threw net uuid sessionId now st 0 pre post hactB hnr
    refine ⟨(runResponseItems net uuid sessionId now st 0
      (pre ++ StreamItem.raises :: post)).trace, ?_⟩
    simp [processResponseStream, hs, ht]

/-- C2, witness: a clean two-event stream ends in `streamComplete`; the same
stream followed by a throwing pull ends in `error`. -/
theorem response_terminal_events_witness :
    (∃ tr, (processResponseStream (fun _ _ => Except.ok ()) (fun _ => "cid0")
        (sampleStateWith sampleActiveSession) "s1"
        [StreamItem.chunk (ChunkContent.textOutput "hi"), StreamItem.otherItem] 4).2 =
      tr ++ [Action.dispatch "streamComplete"]) ∧
    (∃ tr, (processResponseStream (fun _ _ => Except.ok ()) (fun _ => "cid0")
        (sampleStateWith sampleActiveSession) "s1"
        [StreamItem.chunk (ChunkContent.textOutput "hi"), StreamItem.otherItem,
          StreamItem.raises] 4).2 =
      tr ++ [Action.dispatch "error"]) :=
  ⟨(response_terminal_events (fun _ _ => Except.ok ()) (fun _ => "cid0")
      (sampleStateWith sampleActiveSession) "s1"
      [StreamItem.chunk (ChunkContent.textOutput "hi"), StreamItem.otherItem]
      [] [] 4 sampleActiveSession (by decide)).1 (by decide),
   (response_terminal_events (fun _ _ => Except.ok ()) (fun _ => "cid0")
      (sampleStateWith sampleActiveSession) "s1"
      [StreamItem.chunk (ChunkContent.textOutput "hi"), StreamItem.otherItem,
        StreamItem.raises]
      [StreamItem.chunk (ChunkContent.textOutput "hi"), StreamItem.otherItem]
      [] 4 sampleActiveSession (by decide)).2 (by decide) rfl (by decide)⟩


/-- C3, counterexample.  The loop awaits `processToolUse` inline: for the
concrete stream `toolUse`, `contentEnd(TOOL)`, `textOutput`, the trace shows
the tool invocation and the enqueue of its full result block happening
strictly before the next inbound event (`textOutput`) is dispatched — the
loop waits for the tool instead of running it concurrently. -/
theorem tool_call_blocks_loop_counterexample :
    (processResponseStream (fun _ _ => Except.ok ()) (fun _ => "cid0")
      (sampleStateWith sampleActiveSession) "s1"
      [StreamItem.chunk (ChunkContent.toolUse "t1" "getDateAndTimeTool"
          ToolContent.nonString),
        StreamItem.chunk ChunkContent.contentEndTool,
        StreamItem.chunk (ChunkContent.textOutput "hi")] 4).2 =
      [Action.dispatch "toolUse",
        Action.dispatch "toolEnd",
        Action.toolInvoke "getDateAndTimeTool",
        Action.enqueue (OutEvent.contentStartTool "p1" "cid0" "t1"),
        Action.enqueue (OutEvent.toolResult "p1" "cid0" ToolsResult.dateTime),
        Action.enqueue (OutEvent.contentEnd "p1" "cid0"),
        Action.dispatch "toolResult",
        Action.dispatch "textOutput",
        Action.dispatch "streamComplete"] := by
  rfl

/-- C3, amended.  The response loop is strictly sequential: processing a
list `l1 ++ l2` of inbound items first performs every action of `l1` —
including, for a `contentEnd` of type `TOOL`, the synchronous tool
invocation and the enqueue of its result block — and only then starts on
`l2`; its state updates are likewise applied before any item of `l2` is
examined.  So the tool result is enqueued before the loop proceeds to the
next inbound event, rather than concurrently with it ( enqueues made by
other tasks, such as user audio, are unaffected because they do not run
through the loop). -/
theorem runResponseItems_cons (net : String → String → Except String Unit)
    (uuid : Nat → String) (sessionId : String) (now : Nat) (st : ClientState)
    (tc : Nat) (item : StreamItem) (rest : List StreamItem) :
    runResponseItems net uuid sessionId now st tc (item :: rest) =
      (if item = StreamItem.raises then ⟨st, tc, [], true, false⟩
       else if sessionActiveB st sessionId = false then ⟨st, tc, [], false, true⟩
       else
         let h := handleItem net uuid sessionId now st tc item
         let r := runResponseItems net uuid sessionId now h.1 h.2.1 rest
         ⟨r.state, r.toolCalls, h.2.2 ++ r.trace, r.threw, r.broke⟩) := rfl

theorem response_loop_sequential (net : String → String → Except String Unit)
    (uuid : Nat → String) (sessionId : String) (now : Nat) (st : ClientState)
    (tc : Nat) (l1 l2 : List StreamItem) :
    runResponseItems net uuid sessionId now st tc (l1 ++ l2) =
      (let r1 := runResponseItems net uuid sessionId now st tc l1
       if r1.threw || r1.broke then r1
       else
         let r2 := runResponseItems net uuid sessionId now r1.state r1.toolCalls l2
         ⟨r2.state, r2.toolCalls, r1.trace ++ r2.trace, r2.threw, r2.broke⟩) := by
  induction l1 generalizing st tc with
  | nil => simp [runResponseItems]
  | cons item rest ih =>
    rw [List.cons_append, runResponseItems_cons, runResponseItems_cons]
    by_cases hr : item = StreamItem.raises
    · rw [if_pos hr, if_pos hr]
      rfl
    · rw [if_neg hr, if_neg hr]
      by_cases hact : sessionActiveB st sessionId = false
      · rw [if_pos hact, if_pos hact]
        rfl
      · rw [if_neg hact, if_neg hact]
        simp only [ih]
        by_cases hstop :
            ((runResponseItems net uuid sessionId now
                (handleItem net uuid sessionId now st tc item).1
                (handleItem net uuid sessionId now st tc item).2.1 rest).threw ||
              (runResponseItems net uuid sessionId now
                (handleItem net uuid sessionId now st tc item).1
                (handleItem net uuid sessionId now st tc item).2.1 rest).broke) = true
        · simp [hstop]
        · simp only [Bool.or_eq_true, not_or, Bool.not_eq_true] at hstop
          simp [hstop.1, hstop.2, List.append_assoc]


/-- C5, counterexample.  With the session active and registered, the queue
empty, and at least one item already produced (`eventCount = 1`), a timeout
of the wait race makes `next()` end the sequence (`done`), although the
`closeSignal` never fired and the session is still active — and no
`sessionStart` is re-seeded at that point, since the re-seed only happens
before the wait and only when `eventCount = 0`. -/
theorem iter_timeout_ends_sequence_counterexample :
    (mapLookup (sampleStateWith sampleActiveSession).activeSessions "s1").map
      SessionData.isActive = some true ∧
    sampleActiveSession.queue = [] ∧
    (iterNext (sampleStateWith sampleActiveSession) "s1" 1 WaitOutcome.timedOut [] 4).1 =
      IterResult.done := by
  decide

/-- C5, amended.  What the iterator actually does on an active registered
session with an empty queue: (a) when no item was ever produced
(`eventCount = 0`) it re-seeds `sessionStart` before waiting and immediately
yields it (whatever the race would have returned); (b) when items were
already produced, expiry of the 10-second timer with the queue still empty
ends the sequence even though the session is active and `closeSignal` never
fired; (c) a `closeSignal` outcome likewise ends it; and (d) it always ends
the sequence when the session has gone inactive. -/
theorem iterNext_empty_queue_behavior (st : ClientState) (sessionId : String)
    (s : SessionData) (w : WaitOutcome) (ec : Nat) (now : Nat)
    (hs : mapLookup st.activeSessions sessionId = some s)
    (hact : s.isActive = true) (hq : s.queue = []) :
    (iterNext st sessionId 0 w [] now).1 = IterResult.yield OutEvent.sessionStart ∧
    (ec ≠ 0 → (iterNext st sessionId ec WaitOutcome.timedOut [] now).1 = IterResult.done) ∧
    (ec ≠ 0 → (iterNext st sessionId ec WaitOutcome.closed [] now).1 = IterResult.done) ∧
    (∀ st2 s2, mapLookup st2.activeSessions sessionId = some s2 → s2.isActive = false →
      (iterNext st2 sessionId ec w [] now).1 = IterResult.done) := by
  refine ⟨?_, ?_, ?_, ?_⟩
  · simp [iterNext, setupSessionStartEvent, addEventToSessionQueue, updateSessionActivity,
      hs, hact, hq, mapLookup_mapInsert_self]
  · intro hne
    have hbeq : (ec == 0) = false := by
      simp [hne]
    simp [iterNext, hs, hact, hq, hbeq]
  · intro hne
    have hbeq : (ec == 0) = false := by
      simp [hne]
    simp [iterNext, hs, hact, hq, hbeq]
  · intro st2 s2 hs2 hin2
    simp [iterNext, hs2, hin2]

/-- C5, witness for the amended theorem at the sample sessions. -/
theorem iterNext_empty_queue_behavior_witness :
    (iterNext (sampleStateWith sampleActiveSession) "s1" 0 WaitOutcome.signaled [] 4).1 =
      IterResult.yield OutEvent.sessionStart ∧
    (iterNext (sampleStateWith sampleActiveSession) "s1" 1 WaitOutcome.timedOut [] 4).1 =
      IterResult.done ∧
    (iterNext (sampleStateWith sampleActiveSession) "s1" 1 WaitOutcome.closed [] 4).1 =
      IterResult.done ∧
    (iterNext (sampleStateWith sampleInactiveSession) "s1" 1 WaitOutcome.signaled [] 4).1 =
      IterResult.done := by
  have h := iterNext_empty_queue_behavior (sampleStateWith sampleActiveSession) "s1"
    sampleActiveSession WaitOutcome.signaled 1 4 (by decide) (by decide) (by decide)
  exact ⟨h.1, h.2.1 (by decide), h.2.2.1 (by decide),
    h.2.2.2 (sampleStateWith sampleInactiveSession) sampleInactiveSession
      (by decide) (by decide)⟩

end NovaSonic
